import Mathlib

/-!
Verification development for the patient identity-resolution and
registration logic of the `ai_smart_healthcare` backend
(`app/services/patient_service.py`, `app/helpers/patient_helper.py`,
`app/utils/date_utils.py`).

Strings are modelled by Lean `String` with all operations defined over the
underlying character list (`String.data`), mirroring the Python string
operations used by the source (ASCII behaviour of `str.strip`, `str.lower`,
regex `[^\d+]`, suffix / anchored matches).  The Mongo `patients` collection
is modelled as a `List PatientDoc` in natural (insertion) order; `find_one`
returns the first document matching the filter.  The per-day atomic counter
collection is modelled as an association list from counter key to the stored
sequence value.
-/

namespace Healthcare

/-- The ASCII whitespace characters removed by Python `str.strip()`. -/
def pyWS (c : Char) : Bool :=
  c == ' ' || c == '\t' || c == '\n' || c == '\r' || c == '\x0b' || c == '\x0c'

/-- Python `str.strip()` on the character list: drop leading and trailing
whitespace. -/
def stripChars (l : List Char) : List Char :=
  ((l.dropWhile pyWS).reverse.dropWhile pyWS).reverse

/-- Python `str.strip()`. -/
def pyStrip (s : String) : String := ⟨stripChars s.data⟩

/-- ASCII lower-casing of one character, as Python `str.lower` acts on the
ASCII range used by this code base. -/
def pyLowerChar (c : Char) : Char :=
  if 'A' ≤ c ∧ c ≤ 'Z' then Char.ofNat (c.toNat + 32) else c

/-- Python `str.lower()`. -/
def pyLower (s : String) : String := ⟨s.data.map pyLowerChar⟩

/-- Length of a string as a character count (Python `len`). -/
def strLen (s : String) : Nat := s.data.length

/-- Python `s[-n:]` for a string of length at least `n`. -/
def takeLast (n : Nat) (s : String) : String := ⟨s.data.drop (s.data.length - n)⟩

/-- Whether `suffix` is a suffix of `s`: the semantics of the Mongo filter
`{"$regex": ".*<escaped suffix>$"}` built by the service (the queried text is
`re.escape`d, so the regex matches literally). -/
def endsWithStr (s suffix : String) : Bool := suffix.data.isSuffixOf s.data

/-- The character class kept by `re.sub(r'[^\d+]', '', phone)`: digits and
`+`. -/
def keepPhoneChar (c : Char) : Bool := c.isDigit || c == '+'

/-- Python `cleaned.startswith('+')`. -/
def startsWithPlus (s : String) : Bool :=
  match s.data with
  | '+' :: _ => true
  | _ => false

/-- Source `app/helpers/patient_helper.py::sanitize_phone_number`: keep only digits
and `+`; if the result does not start with `+` and has exactly 10
characters, prefix `+91`. -/
def sanitize_phone_number (phone : String) : String :=
  if phone = "" then ""
  else
    let cleaned : String := ⟨phone.data.filter keepPhoneChar⟩
    if ¬ startsWithPlus cleaned ∧ strLen cleaned = 10 then "+91" ++ cleaned
    else cleaned

/-- Case-insensitive anchored match: the semantics of the Mongo filter
`{"$regex": "^<escaped pattern>$", "$options": "i"}`. -/
def ciNameMatch (stored pat : String) : Bool := pyLower stored == pyLower pat

/-- The stored shape of a document of the `patients` collection.  The audit
timestamps (`created_at`, `updated_at`, `registration_date`,
`deactivated_at`), the Mongo `_id`, `created_by` and the empty
`medical_history` / `appointments` / `emergency_contacts` lists carry no
information relevant to the verified properties and are omitted. -/
structure PatientDoc where
  patient_id : String
  full_name : String
  contact_number : String
  date_of_birth : String
  age : Option Int
  gender : String
  locality : String
  is_active : Bool
deriving DecidableEq, Repr

/-- The single Mongo filter built by
`PatientService.find_existing_patient` (the `query_conditions` list never
holds more than one element, since the four branches form an `elif`
chain). -/
inductive PQuery where
  | byId : String → PQuery
  | byPhoneName : String → String → PQuery
  | byPhone : String → PQuery
  | byName : String → PQuery
deriving DecidableEq, Repr

/-- Whether a stored document satisfies the filter (before the extra
`is_active` constraint that `find_existing_patient` adds at top level). -/
def matchesQuery (q : PQuery) (p : PatientDoc) : Bool :=
  match q with
  | .byId pid => p.patient_id == pid
  | .byPhoneName last10 nm => endsWithStr p.contact_number last10 && ciNameMatch p.full_name nm
  | .byPhone last10 => endsWithStr p.contact_number last10
  | .byName nm => ciNameMatch p.full_name nm

/-- Model of `self.db.patients.find_one(query)` with the `is_active: True` constraint
merged into the filter: first document in natural order that matches. -/
def find_one (db : List PatientDoc) (q : PQuery) : Option PatientDoc :=
  db.find? (fun p => matchesQuery q p && p.is_active)

/-- Python truthiness plus `Optional[str]` defaulting: the value of an
optional string argument, `None` behaving as the falsy `""`. -/
def strVal : Option String → String
  | none => ""
  | some s => s

/-- The query-construction phase of
`PatientService.find_existing_patient` (lines 118-163): the `elif` chain
over `patient_id`, `contact_number`, `full_name`, yielding the single filter
passed to `find_one`, or `none` when `query_conditions` stays empty and the
function returns `None` without querying. -/
def buildQuery (contact_number full_name patient_id : Option String) : Option PQuery :=
  if strVal patient_id ≠ "" ∧ pyStrip (strVal patient_id) ≠ "" then
    some (.byId (pyStrip (strVal patient_id)))
  else if strVal contact_number ≠ "" ∧ strVal full_name ≠ "" then
    if 10 ≤ strLen (sanitize_phone_number (strVal contact_number)) then
      some (.byPhoneName (takeLast 10 (sanitize_phone_number (strVal contact_number)))
        (pyLower (pyStrip (strVal full_name))))
    else none
  else if strVal contact_number ≠ "" ∧ pyStrip (strVal contact_number) ≠ "" then
    if 10 ≤ strLen (sanitize_phone_number (strVal contact_number)) then
      some (.byPhone (takeLast 10 (sanitize_phone_number (strVal contact_number))))
    else none
  else if strVal full_name ≠ "" ∧ pyStrip (strVal full_name) ≠ "" then
    some (.byName (pyLower (pyStrip (strVal full_name))))
  else none

/-- Source `PatientService.find_existing_patient`, with the behaviour of the
storage round trip made explicit: `storage_error = true` means
`find_one` raises, and the surrounding `try/except` catches the error, logs
it, and returns `None`.  When no filter condition was produced the function
returns `None` before any storage call. -/
def find_existing_patientX (storage_error : Bool) (db : List PatientDoc)
    (contact_number full_name patient_id : Option String) : Option PatientDoc :=
  match buildQuery contact_number full_name patient_id with
  | none => none
  | some q => if storage_error then none else find_one db q

/-- Source `PatientService.find_existing_patient` on a healthy storage layer. -/
def find_existing_patient (db : List PatientDoc)
    (contact_number full_name patient_id : Option String) : Option PatientDoc :=
  find_existing_patientX false db contact_number full_name patient_id

/-- Source `PatientService.get_patient_by_id`. -/
def get_patient_by_id (db : List PatientDoc) (patient_id : String) : Option PatientDoc :=
  if patient_id = "" ∨ pyStrip patient_id = "" then none
  else db.find? (fun p => p.patient_id == pyStrip patient_id && p.is_active)

/-! ## Dates and validation -/

/-- A calendar date, as produced by Python `datetime.strptime(s, '%d-%m-%Y').date()`
and `date.today()`. -/
structure PDate where
  year : Nat
  month : Nat
  day : Nat
deriving DecidableEq, Repr

/-- Gregorian leap year, as used by `datetime`'s calendar validation. -/
def isLeapYear (y : Nat) : Bool := y % 4 == 0 && (y % 100 != 0 || y % 400 == 0)

def daysInMonth (y m : Nat) : Nat :=
  if m = 2 then (if isLeapYear y then 29 else 28)
  else if m = 4 ∨ m = 6 ∨ m = 9 ∨ m = 11 then 30
  else 31

/-- Split a character list on `'-'` (the separators of the `%d-%m-%Y`
pattern). -/
def splitDashAux : List Char → List Char → List (List Char)
  | [], acc => [acc.reverse]
  | c :: rest, acc =>
    if c = '-' then acc.reverse :: splitDashAux rest []
    else splitDashAux rest (c :: acc)

def splitDash (s : String) : List (List Char) := splitDashAux s.data []

def allDigits (l : List Char) : Bool := l.all Char.isDigit

def digitsVal (l : List Char) : Nat := l.foldl (fun acc c => acc * 10 + (c.toNat - 48)) 0

/-- Model of `datetime.strptime(s, '%d-%m-%Y')`: day and month of one or two digits
(value at least 1), year of exactly four digits (`datetime` requires
`year ≥ 1`), full-string match, then calendar validation of the day against
the month (including leap years). -/
def parseDate (s : String) : Option PDate :=
  match splitDash s with
  | [ds, ms, ys] =>
    if allDigits ds ∧ allDigits ms ∧ allDigits ys
        ∧ 1 ≤ ds.length ∧ ds.length ≤ 2 ∧ 1 ≤ ms.length ∧ ms.length ≤ 2
        ∧ ys.length = 4 then
      let d := digitsVal ds
      let m := digitsVal ms
      let y := digitsVal ys
      if 1 ≤ y ∧ 1 ≤ m ∧ m ≤ 12 ∧ 1 ≤ d ∧ d ≤ daysInMonth y m then
        some ⟨y, m, d⟩
      else none
    else none
  | _ => none

/-- Python date comparison `a < b`. -/
def dateLt (a b : PDate) : Bool :=
  a.year < b.year || (a.year == b.year &&
    (a.month < b.month || (a.month == b.month && a.day < b.day)))

/-- Python tuple comparison `(a.month, a.day) < (b.month, b.day)`. -/
def mdLt (a b : PDate) : Bool :=
  a.month < b.month || (a.month == b.month && a.day < b.day)

/-- Source `app/utils/date_utils.py::calculate_age` applied to an already parsed
date of birth, relative to `today`. -/
def calcAge (today dob : PDate) : Int :=
  (today.year : Int) - (dob.year : Int) - (if mdLt today dob then 1 else 0)

/-- The payload of the `PatientCreate` request model. -/
structure PatientCreate where
  fullName : String
  contactNumber : String
  dateOfBirth : String
  gender : String
  locality : String
deriving DecidableEq, Repr

/-- Source `app/helpers/patient_helper.py::validate_patient_data`, returning the
accumulated error list (the source's `valid` flag is `errors == []`).
`today` is `datetime.now().date()`. -/
def validate_patient_data (pd : PatientCreate) (today : PDate) : List String :=
  (if pd.fullName = "" ∨ pyStrip pd.fullName = "" then ["fullName is required"] else [])
  ++ (if pd.contactNumber = "" ∨ pyStrip pd.contactNumber = "" then ["contactNumber is required"] else [])
  ++ (if pd.dateOfBirth = "" ∨ pyStrip pd.dateOfBirth = "" then ["dateOfBirth is required"] else [])
  ++ (if pd.gender = "" ∨ pyStrip pd.gender = "" then ["gender is required"] else [])
  ++ (if pd.locality = "" ∨ pyStrip pd.locality = "" then ["locality is required"] else [])
  ++ (if pd.contactNumber ≠ "" then
        (if strLen ⟨pd.contactNumber.data.filter keepPhoneChar⟩ < 10 then
          ["Contact number must be at least 10 digits"] else [])
      else [])
  ++ (if pd.dateOfBirth ≠ "" then
        match parseDate pd.dateOfBirth with
        | none => ["Invalid date of birth format. Use DD-MM-YYYY"]
        | some dob =>
          (if dateLt today dob then ["Date of birth cannot be in the future"] else [])
          ++ (if 150 < calcAge today dob then
                ["Age calculated from date of birth exceeds 150 years"]
              else if calcAge today dob < 0 then ["Invalid date of birth"] else [])
      else [])
  ++ (if pd.gender ∈ ["Male", "Female", "Other"] then [] else ["Gender must be Male, Female, or Other"])
  ++ (if pd.locality ≠ "" ∧ strLen (pyStrip pd.locality) < 5 then ["Locality isn't correct."] else [])

/-! ## Identifier generation -/

/-- The `counters` collection: counter key to stored `sequence` value.  An
absent key behaves as 0 (the `$inc` upsert creates the document with
`sequence` equal to the increment). -/
def counterGet (cs : List (String × Nat)) (k : String) : Nat :=
  match cs.find? (fun e => e.1 == k) with
  | some e => e.2
  | none => 0

def counterSet (cs : List (String × Nat)) (k : String) (v : Nat) : List (String × Nat) :=
  match cs with
  | [] => [(k, v)]
  | e :: rest => if e.1 == k then (k, v) :: rest else e :: counterSet rest k v

/-- Python `str(n).zfill(w)`. -/
def zfill (w : Nat) (s : String) : String := ⟨List.replicate (w - s.data.length) '0' ++ s.data⟩

/-- The decimal digit character for `n ≤ 9`. -/
def digitChar : Nat → Char
  | 0 => '0' | 1 => '1' | 2 => '2' | 3 => '3' | 4 => '4'
  | 5 => '5' | 6 => '6' | 7 => '7' | 8 => '8' | _ => '9'

/-- A zero-padded two-digit decimal rendering, the building block of the
`strftime` fields `%y %m %d %H %M %S` (all values below 100 here). -/
def two_digit (n : Nat) : String := ⟨[digitChar (n / 10), digitChar (n % 10)]⟩

/-- Model of `datetime.now().strftime("%y%m%d")`. -/
def yymmdd (d : PDate) : String := two_digit (d.year % 100) ++ two_digit d.month ++ two_digit d.day

/-- Source `app/helpers/patient_helper.py::generate_patient_id`, success path: the
atomic `find_one_and_update` with `$inc` and `return_document=True` yields
the post-increment sequence; the identifier is
`PAT-<YYMMDD>-<seq zero-filled to 3>`.  Returns the identifier and the
updated counters collection. -/
def generate_patient_id (counters : List (String × Nat)) (todayStr : String) :
    String × List (String × Nat) :=
  let key := "patient_counter_" ++ todayStr
  let seq := counterGet counters key + 1
  ("PAT-" ++ todayStr ++ "-" ++ zfill 3 (Nat.repr seq), counterSet counters key seq)

/-- Source `generate_patient_id`, fallback path taken when the atomic increment
raises: `PAT-<YYMMDD>-T<HHMMSS>` from `datetime.now().strftime("%H%M%S")`. -/
def generate_patient_id_fallback (todayStr : String) (h m s : Nat) : String :=
  "PAT-" ++ todayStr ++ "-T" ++ two_digit h ++ two_digit m ++ two_digit s

/-! ## Patient creation, update, deactivation -/

/-- Source `app/helpers/patient_helper.py::format_patient_document` plus the audit
fields added by `create_patient` (`is_active: True`; the timestamps are not
modelled).  Note the stored `contact_number` and `full_name` are the raw
request values. -/
def format_patient_document (today : PDate) (pd : PatientCreate) (patient_id : String) :
    PatientDoc :=
  { patient_id := patient_id
    full_name := pd.fullName
    contact_number := pd.contactNumber
    date_of_birth := pd.dateOfBirth
    age := (parseDate pd.dateOfBirth).map (calcAge today)
    gender := pd.gender
    locality := pd.locality
    is_active := true }

/-- The result dictionary of `PatientService.create_patient` (the
`database_id` of a successful insert is a fresh Mongo `ObjectId` and is not
modelled). -/
structure CreateResult where
  success : Bool
  message : String
  patient_id : Option String
  existing_patient : Option Bool
  duplicate_type : Option String
  error : Bool
deriving DecidableEq, Repr

/-- Source `PatientService._error_response`. -/
def error_response (msg : String) : CreateResult :=
  { success := false, message := msg, patient_id := none, existing_patient := none,
    duplicate_type := none, error := true }

/-- State of the database: the `patients` collection in natural order and
the `counters` collection. -/
structure DB where
  patients : List PatientDoc
  counters : List (String × Nat)
deriving Repr

/-- The shared tail of `create_patient` (step 3): generate an identifier,
format the document, insert it. -/
def create_patient_insert (today : PDate) (db : DB) (pd : PatientCreate) :
    CreateResult × DB :=
  let gen := generate_patient_id db.counters (yymmdd today)
  let doc := format_patient_document today pd gen.1
  ({ success := true, message := "Patient created successfully", patient_id := some gen.1,
     existing_patient := some false, duplicate_type := none, error := false },
   { patients := db.patients ++ [doc], counters := gen.2 })

/-- Source `PatientService.create_patient` on a healthy storage layer, with
`today` standing for the `datetime.now()` date used by validation, age
computation and the daily counter key. -/
def create_patient (today : PDate) (db : DB) (pd : PatientCreate) : CreateResult × DB :=
  if validate_patient_data pd today ≠ [] then
    (error_response ("Validation error: " ++
      String.intercalate "; " (validate_patient_data pd today)), db)
  else
    match find_existing_patient db.patients (some pd.contactNumber) (some pd.fullName) none with
    | some ex =>
      if pyLower ex.full_name == pyLower pd.fullName && ex.date_of_birth == pd.dateOfBirth then
        ({ success := false, message := "Patient already exists in our system",
           patient_id := some ex.patient_id, existing_patient := some true,
           duplicate_type := some "exact_match", error := false }, db)
      else create_patient_insert today db pd
    | none => create_patient_insert today db pd

/-- One `$set` assignment on the modelled document fields; keys outside the
modelled shape leave the document unchanged. -/
def setField (doc : PatientDoc) (k v : String) : PatientDoc :=
  if k = "patient_id" then { doc with patient_id := v }
  else if k = "full_name" then { doc with full_name := v }
  else if k = "contact_number" then { doc with contact_number := v }
  else if k = "date_of_birth" then { doc with date_of_birth := v }
  else if k = "gender" then { doc with gender := v }
  else if k = "locality" then { doc with locality := v }
  else doc

/-- Apply a `$set` document (key/value list) to one stored document. -/
def applySet (doc : PatientDoc) : List (String × String) → PatientDoc
  | [] => doc
  | (k, v) :: rest => applySet (setField doc k v) rest

/-- Model of `update_one`: rewrite the first document matching the filter. -/
def updateFirst (pred : PatientDoc → Bool) (f : PatientDoc → PatientDoc) :
    List PatientDoc → List PatientDoc
  | [] => []
  | d :: rest => if pred d then f d :: rest else d :: updateFirst pred f rest

/-- Source `PatientService.update_patient`, stored-state effect.  `update_data` is
the caller-supplied dictionary, a key/value list whose `none` values are the
Python `None`s removed before the `$set` (the always-set `updated_at` audit
timestamp is not modelled). -/
def update_patient (db : List PatientDoc) (patient_id : String)
    (update_data : List (String × Option String)) : List PatientDoc :=
  if patient_id = "" ∨ pyStrip patient_id = "" then db
  else if update_data = [] then db
  else
    let clean := update_data.filterMap (fun e => e.2.map (fun v => (e.1, v)))
    updateFirst (fun p => p.patient_id == pyStrip patient_id && p.is_active)
      (fun p => applySet p clean) db

/-- Source `PatientService.deactivate_patient`, stored-state effect: set
`is_active` to `false` on the first document with the given identifier
(the filter has no `is_active` constraint here). -/
def deactivate_patient (db : List PatientDoc) (patient_id : String) : List PatientDoc :=
  if patient_id = "" ∨ pyStrip patient_id = "" then db
  else updateFirst (fun p => p.patient_id == pyStrip patient_id)
    (fun p => { p with is_active := false }) db

/-! ## Helper lemmas -/

theorem strVal_none : strVal none = "" := rfl

theorem strVal_some (s : String) : strVal (some s) = s := rfl

theorem pyStrip_empty : pyStrip "" = "" := rfl

/-- A digit or `+` is not whitespace. -/
theorem keepPhoneChar_not_ws {c : Char} (h : keepPhoneChar c = true) : pyWS c = false := by
  by_contra hws
  rw [Bool.not_eq_false] at hws
  simp only [pyWS, Bool.or_eq_true, beq_iff_eq] at hws
  rcases hws with ((((hc | hc) | hc) | hc) | hc) | hc <;> subst hc <;>
    simp [keepPhoneChar] at h

/-- Stripping keeps the list nonempty when it holds a non-whitespace
character. -/
theorem stripChars_ne_nil {l : List Char} {c : Char} (hm : c ∈ l)
    (hw : pyWS c = false) : stripChars l ≠ [] := by
  intro hnil
  unfold stripChars at hnil
  rw [List.reverse_eq_nil_iff, List.dropWhile_eq_nil_iff] at hnil
  have hcd : c ∈ l.dropWhile pyWS := by
    have := List.takeWhile_append_dropWhile (p := pyWS) (l := l)
    rw [← this] at hm
    rcases List.mem_append.mp hm with h | h
    · exact absurd (List.mem_takeWhile_imp h) (by simp [hw])
    · exact h
  have := hnil c (List.mem_reverse.mpr hcd)
  simp [hw] at this

/-- A sanitized contact number of length at least 10 comes from a nonempty
raw string whose `strip()` is nonempty. -/
theorem sanitize_long_src {c : String} (h : 10 ≤ strLen (sanitize_phone_number c)) :
    c ≠ "" ∧ pyStrip c ≠ "" := by
  by_cases hc : c = ""
  · subst hc
    simp [sanitize_phone_number, strLen] at h
  · refine ⟨hc, ?_⟩
    have hfilter : c.data.filter keepPhoneChar ≠ [] := by
      intro hnil
      rw [sanitize_phone_number, if_neg hc] at h
      simp only [hnil] at h
      rw [if_neg (by simp [startsWithPlus, strLen])] at h
      simp [strLen] at h
    have hex : ∃ ch ∈ c.data, keepPhoneChar ch = true := by
      by_contra hall
      push_neg at hall
      exact hfilter (List.filter_eq_nil_iff.mpr (by simpa using hall))
    rcases hex with ⟨ch, hmem, hkeep⟩
    intro hstrip
    exact stripChars_ne_nil hmem (keepPhoneChar_not_ws hkeep)
      (by simpa [pyStrip, String.ext_iff] using hstrip)

/-- Lemma: `find_one` only returns active documents. -/
theorem find_one_is_active {db : List PatientDoc} {q : PQuery} {p : PatientDoc}
    (h : find_one db q = some p) : p.is_active = true := by
  have := List.find?_some h
  exact (Bool.and_eq_true_iff.mp this).2

/-- Lemma: `pyStrip s` nonempty forces `s` nonempty. -/
theorem ne_empty_of_pyStrip_ne_empty {s : String} (h : pyStrip s ≠ "") : s ≠ "" := by
  intro hs
  subst hs
  exact h pyStrip_empty

/-- Spec-side definition, following the words of the claim about matching
priority literally: first satisfied branch wins; a non-blank `patient_id`
gives the exact identifier match; otherwise both `contact_number` and
`full_name` present give the combined last-10-digits and case-insensitive
exact-name match; otherwise `contact_number` alone the last-10-digits match;
otherwise `full_name` alone the name match; otherwise no query. -/
def resolverClaimQuery (contact_number full_name patient_id : Option String) : Option PQuery :=
  if pyStrip (strVal patient_id) ≠ "" then
    some (.byId (pyStrip (strVal patient_id)))
  else if strVal contact_number ≠ "" ∧ strVal full_name ≠ "" then
    some (.byPhoneName (takeLast 10 (sanitize_phone_number (strVal contact_number)))
      (pyLower (pyStrip (strVal full_name))))
  else if pyStrip (strVal contact_number) ≠ "" then
    some (.byPhone (takeLast 10 (sanitize_phone_number (strVal contact_number))))
  else if pyStrip (strVal full_name) ≠ "" then
    some (.byName (pyLower (pyStrip (strVal full_name))))
  else none

/-- Spec-side definition of the amended claim: as `resolverClaimQuery`, but
the two branches that match on the contact number issue their query only
when the sanitized contact number has at least 10 characters; a selected
branch that fails this check issues no query at all (later branches are not
consulted). -/
def resolverAmendedQuery (contact_number full_name patient_id : Option String) :
    Option PQuery :=
  if pyStrip (strVal patient_id) ≠ "" then
    some (.byId (pyStrip (strVal patient_id)))
  else if strVal contact_number ≠ "" ∧ strVal full_name ≠ "" then
    if 10 ≤ strLen (sanitize_phone_number (strVal contact_number)) then
      some (.byPhoneName (takeLast 10 (sanitize_phone_number (strVal contact_number)))
        (pyLower (pyStrip (strVal full_name))))
    else none
  else if pyStrip (strVal contact_number) ≠ "" then
    if 10 ≤ strLen (sanitize_phone_number (strVal contact_number)) then
      some (.byPhone (takeLast 10 (sanitize_phone_number (strVal contact_number))))
    else none
  else if pyStrip (strVal full_name) ≠ "" then
    some (.byName (pyLower (pyStrip (strVal full_name))))
  else none

/-! ## Claim theorems -/

/-- C2 (amended): the query construction of `find_existing_patient` follows
exactly the claimed priority order — non-blank `patient_id` wins over
everything, then the combined contact+name match, then contact alone, then
name alone, none of the criteria meaning no query — with the amendment that
the two contact-number branches issue their query only when the sanitized
contact number has at least 10 characters (otherwise no query at all).
Whenever a filter is produced it is the single query issued, and when no
filter is produced the result is `None` with no storage access. -/
theorem find_query_priority :
    ∀ (contact_number full_name patient_id : Option String) (db : List PatientDoc),
      buildQuery contact_number full_name patient_id =
        resolverAmendedQuery contact_number full_name patient_id ∧
      (∀ q, buildQuery contact_number full_name patient_id = some q →
        find_existing_patient db contact_number full_name patient_id = find_one db q) ∧
      (buildQuery contact_number full_name patient_id = none →
        find_existing_patient db contact_number full_name patient_id = none) := by
  intro c n p db
  refine ⟨?_, ?_, ?_⟩
  · unfold buildQuery resolverAmendedQuery
    by_cases h1 : pyStrip (strVal p) ≠ ""
    · rw [if_pos ⟨ne_empty_of_pyStrip_ne_empty h1, h1⟩, if_pos h1]
    · rw [if_neg (fun hab => h1 hab.2), if_neg h1]
      by_cases h2 : strVal c ≠ "" ∧ strVal n ≠ ""
      · rw [if_pos h2, if_pos h2]
      · rw [if_neg h2, if_neg h2]
        by_cases h3 : pyStrip (strVal c) ≠ ""
        · rw [if_pos ⟨ne_empty_of_pyStrip_ne_empty h3, h3⟩, if_pos h3]
        · rw [if_neg (fun hab => h3 hab.2), if_neg h3]
          by_cases h4 : pyStrip (strVal n) ≠ ""
          · rw [if_pos ⟨ne_empty_of_pyStrip_ne_empty h4, h4⟩, if_pos h4]
          · rw [if_neg (fun hab => h4 hab.2), if_neg h4]
  · intro q hq
    unfold find_existing_patient find_existing_patientX
    rw [hq]
    simp
  · intro hq
    unfold find_existing_patient find_existing_patientX
    rw [hq]

/-- Witness for C2 at concrete inputs: a non-blank `patient_id` beats the
other criteria, and empty criteria issue no query and return `None`. -/
theorem find_query_priority_witness :
    buildQuery (some "9876543210") (some "Asha Rao") (some "PAT-1") =
      resolverAmendedQuery (some "9876543210") (some "Asha Rao") (some "PAT-1") ∧
    find_existing_patient [] none none none = none :=
  ⟨(find_query_priority (some "9876543210") (some "Asha Rao") (some "PAT-1") []).1,
   (find_query_priority none none none []).2.2 (by decide)⟩

/-- With no `patient_id` and a usable (10-plus-character sanitized) contact
number, the query is the combined match when a name is supplied and the
phone-only match otherwise. -/
theorem buildQuery_contact (c : String) (hc : c ≠ "") (hs : pyStrip c ≠ "")
    (hl : 10 ≤ strLen (sanitize_phone_number c)) (n : Option String) :
    buildQuery (some c) n none =
      if strVal n ≠ "" then
        some (.byPhoneName (takeLast 10 (sanitize_phone_number c))
          (pyLower (pyStrip (strVal n))))
      else some (.byPhone (takeLast 10 (sanitize_phone_number c))) := by
  unfold buildQuery
  simp only [strVal_some]
  rw [if_neg (fun hab => hab.1 (by simp [strVal_none, pyStrip_empty]))]
  by_cases hn : strVal n ≠ ""
  · rw [if_pos ⟨hc, hn⟩, if_pos hl, if_pos hn]
  · rw [if_neg (fun hab => hn hab.2), if_pos ⟨hc, hs⟩, if_pos hl, if_neg hn]

/-- C3: two contact numbers whose sanitized forms are 10-plus characters
long and agree on their last 10 characters — in particular any two valid
numbers differing only by a leading country-code prefix — are
interchangeable in `find_existing_patient`: with any name input, both
queries match exactly the same stored records. -/
theorem contact_prefix_insensitive :
    ∀ (c1 c2 : String) (full_name : Option String) (db : List PatientDoc),
      10 ≤ strLen (sanitize_phone_number c1) →
      10 ≤ strLen (sanitize_phone_number c2) →
      takeLast 10 (sanitize_phone_number c1) = takeLast 10 (sanitize_phone_number c2) →
      find_existing_patient db (some c1) full_name none =
        find_existing_patient db (some c2) full_name none := by
  intro c1 c2 n db h1 h2 heq
  obtain ⟨hc1, hs1⟩ := sanitize_long_src h1
  obtain ⟨hc2, hs2⟩ := sanitize_long_src h2
  have hq : buildQuery (some c1) n none = buildQuery (some c2) n none := by
    rw [buildQuery_contact c1 hc1 hs1 h1 n, buildQuery_contact c2 hc2 hs2 h2 n, heq]
  unfold find_existing_patient find_existing_patientX
  rw [hq]

/-- Witness for C3: `"+919876543210"` and `"9876543210"` query identically. -/
theorem contact_prefix_insensitive_witness :
    find_existing_patient
      [⟨"PAT-1", "Asha Rao", "9876543210", "01-02-1990", none, "Male", "Hyderabad", true⟩]
      (some "+919876543210") (some "Asha Rao") none =
    find_existing_patient
      [⟨"PAT-1", "Asha Rao", "9876543210", "01-02-1990", none, "Male", "Hyderabad", true⟩]
      (some "9876543210") (some "Asha Rao") none :=
  contact_prefix_insensitive "+919876543210" "9876543210" (some "Asha Rao")
    [⟨"PAT-1", "Asha Rao", "9876543210", "01-02-1990", none, "Male", "Hyderabad", true⟩]
    (by decide) (by decide) (by decide)

/-- C4 (amended): full names are compared after trimming the query input and
lower-casing both sides.  Two query names whose trimmed, lower-cased forms
agree (in particular names differing only by letter case or surrounding
whitespace) drive exactly the same search against any collection; and two
stored full names differing only by letter case satisfy exactly the same
filters.  (Surrounding whitespace in the *stored* name is not tolerated:
the anchored comparison requires the stored name to equal the trimmed query
name exactly up to case — see the counterexample.) -/
theorem name_case_insensitive :
    ∀ (n1 n2 : String) (contact_number patient_id : Option String) (db : List PatientDoc),
      pyStrip n1 ≠ "" → pyStrip n2 ≠ "" →
      pyLower (pyStrip n1) = pyLower (pyStrip n2) →
      (find_existing_patient db contact_number (some n1) patient_id =
        find_existing_patient db contact_number (some n2) patient_id) ∧
      (∀ (q : PQuery) (rec : PatientDoc) (nm : String),
        pyLower rec.full_name = pyLower nm →
        matchesQuery q rec = matchesQuery q { rec with full_name := nm }) := by
  intro n1 n2 c p db hs1 hs2 hcl
  have hn1 : n1 ≠ "" := ne_empty_of_pyStrip_ne_empty hs1
  have hn2 : n2 ≠ "" := ne_empty_of_pyStrip_ne_empty hs2
  constructor
  · have hq : buildQuery c (some n1) p = buildQuery c (some n2) p := by
      unfold buildQuery
      simp only [strVal_some]
      by_cases h1 : strVal p ≠ "" ∧ pyStrip (strVal p) ≠ ""
      · rw [if_pos h1, if_pos h1]
      · rw [if_neg h1, if_neg h1]
        by_cases h2 : strVal c ≠ ""
        · have hb2a : strVal c ≠ "" ∧ n1 ≠ "" := ⟨h2, hn1⟩
          have hb2b : strVal c ≠ "" ∧ n2 ≠ "" := ⟨h2, hn2⟩
          by_cases h3 : 10 ≤ strLen (sanitize_phone_number (strVal c))
          · rw [if_pos hb2a, if_pos h3, if_pos hb2b, if_pos h3, hcl]
          · rw [if_pos hb2a, if_neg h3, if_pos hb2b, if_neg h3]
        · have hc0 : strVal c = "" := by
            by_contra hne
            exact h2 hne
          have hb2a : ¬(strVal c ≠ "" ∧ n1 ≠ "") := fun hab => hab.1 hc0
          have hb2b : ¬(strVal c ≠ "" ∧ n2 ≠ "") := fun hab => hab.1 hc0
          have hb3 : ¬(strVal c ≠ "" ∧ pyStrip (strVal c) ≠ "") := fun hab => hab.1 hc0
          have hb4a : n1 ≠ "" ∧ pyStrip n1 ≠ "" := ⟨hn1, hs1⟩
          have hb4b : n2 ≠ "" ∧ pyStrip n2 ≠ "" := ⟨hn2, hs2⟩
          rw [if_neg hb2a, if_neg hb3, if_pos hb4a, if_neg hb2b, if_neg hb3,
            if_pos hb4b, hcl]
    unfold find_existing_patient find_existing_patientX
    rw [hq]
  · intro q rec nm h
    cases q <;> simp [matchesQuery, ciNameMatch, h]

/-- Witness for C4: `"Asha Rao"` and `"  asha RAO "` drive the same query. -/
theorem name_case_insensitive_witness :
    find_existing_patient
      [⟨"PAT-1", "ASHA rao", "9876543210", "01-02-1990", none, "Male", "Hyderabad", true⟩]
      none (some "Asha Rao") none =
    find_existing_patient
      [⟨"PAT-1", "ASHA rao", "9876543210", "01-02-1990", none, "Male", "Hyderabad", true⟩]
      none (some "  asha RAO ") none :=
  (name_case_insensitive "Asha Rao" "  asha RAO " none none
    [⟨"PAT-1", "ASHA rao", "9876543210", "01-02-1990", none, "Male", "Hyderabad", true⟩]
    (by decide) (by decide) (by decide)).1

/-- Counterexample to C4 as stated: two stored full names that differ only
by surrounding whitespace are not matched by the same queries — the
anchored name filter finds the trimmed stored name but misses the one with
a leading space. -/
theorem name_stored_whitespace_cex :
    find_existing_patient
      [⟨"PAT-1", "asha rao", "9876543210", "01-02-1990", none, "Male", "Hyderabad", true⟩]
      none (some "asha rao") none =
      some ⟨"PAT-1", "asha rao", "9876543210", "01-02-1990", none, "Male", "Hyderabad", true⟩ ∧
    find_existing_patient
      [⟨"PAT-1", " asha rao", "9876543210", "01-02-1990", none, "Male", "Hyderabad", true⟩]
      none (some "asha rao") none = none := by
  decide

/-- Counterexample to C2 as stated: with contact `"12345"` and name
`"Bob"` both supplied, the combined branch is selected but the code issues
no query at all, where the claimed priority reading issues the combined
match. -/
theorem find_query_priority_cex :
    buildQuery (some "12345") (some "Bob") none = none ∧
    resolverClaimQuery (some "12345") (some "Bob") none =
      some (.byPhoneName "12345" "bob") ∧
    buildQuery (some "12345") (some "Bob") none ≠
      resolverClaimQuery (some "12345") (some "Bob") none := by
  decide

/-- C5: on any storage-layer error during the search, `find_existing_patient`
catches and logs the error and returns `None` — it never raises (the model is
a total function), and a storage outage during the duplicate check is
observationally a "no match" result, the same as searching an empty
collection (fail-open). -/
theorem find_search_fails_open :
    ∀ (db : List PatientDoc) (contact_number full_name patient_id : Option String),
      find_existing_patientX true db contact_number full_name patient_id = none ∧
      find_existing_patientX true db contact_number full_name patient_id =
        find_existing_patient [] contact_number full_name patient_id := by
  intro db c n p
  unfold find_existing_patient find_existing_patientX find_one
  cases buildQuery c n p <;> simp

/-- C6: a deactivated (`is_active = false`) document is never returned, by
`find_existing_patient` for any search input, nor by `get_patient_by_id`:
every document either operation returns has `is_active = true`. -/
theorem inactive_never_returned :
    ∀ (db : List PatientDoc) (contact_number full_name patient_id : Option String)
      (pid : String) (doc : PatientDoc),
      (find_existing_patient db contact_number full_name patient_id = some doc →
        doc.is_active = true) ∧
      (get_patient_by_id db pid = some doc → doc.is_active = true) := by
  intro db c n p pid doc
  constructor
  · intro h
    unfold find_existing_patient find_existing_patientX at h
    revert h
    cases buildQuery c n p with
    | none => intro h; exact absurd h (by simp)
    | some q => intro h; exact find_one_is_active (by simpa using h)
  · intro h
    unfold get_patient_by_id at h
    by_cases hp : pid = "" ∨ pyStrip pid = ""
    · rw [if_pos hp] at h; exact absurd h (by simp)
    · rw [if_neg hp] at h
      have hm := List.find?_some h
      exact (Bool.and_eq_true_iff.mp hm).2

/-- Witness for C6 at a concrete active document, matched both through the
identifier search and through `get_patient_by_id`. -/
theorem inactive_never_returned_witness :
    (⟨"PAT-1", "Asha Rao", "9876543210", "01-02-1990", none, "Male", "Hyderabad", true⟩ :
      PatientDoc).is_active = true :=
  (inactive_never_returned
    [⟨"PAT-1", "Asha Rao", "9876543210", "01-02-1990", none, "Male", "Hyderabad", true⟩]
    none none (some "PAT-1") "PAT-1"
    ⟨"PAT-1", "Asha Rao", "9876543210", "01-02-1990", none, "Male", "Hyderabad", true⟩).1
    (by decide)

/-- C10: with no usable `patient_id` but both `contact_number` and
`full_name` supplied (non-empty), a sanitized contact number of fewer than
10 characters makes the combined branch produce no filter condition: no
storage query is issued and the result is `None` — the full name is not
used as a fallback criterion. -/
theorem combined_branch_short_contact_no_query :
    ∀ (c n : String) (p : Option String) (db : List PatientDoc),
      pyStrip (strVal p) = "" → c ≠ "" → n ≠ "" →
      strLen (sanitize_phone_number c) < 10 →
      buildQuery (some c) (some n) p = none ∧
      find_existing_patient db (some c) (some n) p = none := by
  intro c n p db hp hc hn hlen
  have hq : buildQuery (some c) (some n) p = none := by
    unfold buildQuery
    rw [if_neg (by simp [hp]), if_pos ⟨by simpa using hc, by simpa using hn⟩,
      if_neg (by simpa using Nat.not_le.mpr hlen)]
  refine ⟨hq, ?_⟩
  unfold find_existing_patient find_existing_patientX
  rw [hq]

/-- Witness for C10: contact `"12345"` with name `"Bob"` issues no query on
a collection that does hold a patient named Bob. -/
theorem combined_branch_short_contact_no_query_witness :
    buildQuery (some "12345") (some "Bob") none = none ∧
    find_existing_patient
      [⟨"PAT-1", "Bob", "12345", "01-02-1990", none, "Male", "Hyderabad", true⟩]
      (some "12345") (some "Bob") none = none :=
  combined_branch_short_contact_no_query "12345" "Bob" none
    [⟨"PAT-1", "Bob", "12345", "01-02-1990", none, "Male", "Hyderabad", true⟩]
    (by decide) (by decide) (by decide) (by decide)

/-- C1: for a registration request that passes validation and for which the
duplicate check (`find_existing_patient` on the request's contact number and
full name) returns a record: if the stored full name equals the request's
name case-insensitively and the stored date of birth equals the request's
date of birth as an exact string, the registration is rejected with
`success = false`, `duplicate_type = "exact_match"` and the existing
record's identifier, and nothing is inserted; if either field differs, the
registration proceeds: `success = true`, `existing_patient = false`, and a
new document carrying a newly generated identifier is appended to the
collection. -/
theorem create_patient_duplicate_classification :
    ∀ (today : PDate) (db : DB) (pd : PatientCreate) (ex : PatientDoc),
      validate_patient_data pd today = [] →
      find_existing_patient db.patients (some pd.contactNumber) (some pd.fullName) none =
        some ex →
      ((pyLower ex.full_name = pyLower pd.fullName ∧ ex.date_of_birth = pd.dateOfBirth) →
        (create_patient today db pd).1.success = false ∧
        (create_patient today db pd).1.duplicate_type = some "exact_match" ∧
        (create_patient today db pd).1.patient_id = some ex.patient_id ∧
        (create_patient today db pd).2 = db) ∧
      (¬(pyLower ex.full_name = pyLower pd.fullName ∧ ex.date_of_birth = pd.dateOfBirth) →
        (create_patient today db pd).1.success = true ∧
        (create_patient today db pd).1.existing_patient = some false ∧
        (create_patient today db pd).1.patient_id =
          some (generate_patient_id db.counters (yymmdd today)).1 ∧
        (create_patient today db pd).2.patients = db.patients ++
          [format_patient_document today pd
            (generate_patient_id db.counters (yymmdd today)).1]) := by
  intro today db pd ex hval hfind
  have hwf : ¬(validate_patient_data pd today ≠ []) := fun h => h hval
  constructor
  · intro hsame
    have hb : (pyLower ex.full_name == pyLower pd.fullName &&
        ex.date_of_birth == pd.dateOfBirth) = true := by
      simp only [Bool.and_eq_true, beq_iff_eq]
      exact hsame
    unfold create_patient
    rw [if_neg hwf, hfind]
    simp [hb]
  · intro hdiff
    have hb : (pyLower ex.full_name == pyLower pd.fullName &&
        ex.date_of_birth == pd.dateOfBirth) = false := by
      rw [Bool.and_eq_false_iff]
      by_cases h1 : pyLower ex.full_name = pyLower pd.fullName
      · right
        rw [beq_eq_false_iff_ne]
        exact fun h2 => hdiff ⟨h1, h2⟩
      · left
        rw [beq_eq_false_iff_ne]
        exact h1
    unfold create_patient
    rw [if_neg hwf, hfind]
    simp only [hb, Bool.false_eq_true, if_false]
    unfold create_patient_insert
    simp

/-- Witness for C1: registering Asha Rao a second time (same name up to
case, same date of birth) is rejected as an exact match. -/
theorem create_patient_duplicate_classification_witness :
    (create_patient ⟨2026, 10, 12⟩
      ⟨[⟨"PAT-261012-001", "Asha Rao", "9876543210", "01-02-1990", some 36, "Male",
          "Hyderabad", true⟩], []⟩
      ⟨"asha rao", "+919876543210", "01-02-1990", "Female", "Chennai Nagar"⟩).1.success
        = false ∧
    (create_patient ⟨2026, 10, 12⟩
      ⟨[⟨"PAT-261012-001", "Asha Rao", "9876543210", "01-02-1990", some 36, "Male",
          "Hyderabad", true⟩], []⟩
      ⟨"asha rao", "+919876543210", "01-02-1990", "Female", "Chennai Nagar"⟩).1.duplicate_type
        = some "exact_match" ∧
    (create_patient ⟨2026, 10, 12⟩
      ⟨[⟨"PAT-261012-001", "Asha Rao", "9876543210", "01-02-1990", some 36, "Male",
          "Hyderabad", true⟩], []⟩
      ⟨"asha rao", "+919876543210", "01-02-1990", "Female", "Chennai Nagar"⟩).1.patient_id
        = some "PAT-261012-001" := by
  have h := (create_patient_duplicate_classification ⟨2026, 10, 12⟩
    ⟨[⟨"PAT-261012-001", "Asha Rao", "9876543210", "01-02-1990", some 36, "Male",
        "Hyderabad", true⟩], []⟩
    ⟨"asha rao", "+919876543210", "01-02-1990", "Female", "Chennai Nagar"⟩
    ⟨"PAT-261012-001", "Asha Rao", "9876543210", "01-02-1990", some 36, "Male",
      "Hyderabad", true⟩
    (by decide) (by decide)).1 (by decide)
  exact ⟨h.1, h.2.1, h.2.2.1⟩

/-- C7 (amended): every document inserted by a successful `create_patient`
stores the *raw* submitted contact number — `format_patient_document`
copies `patient_data.contactNumber` verbatim; `sanitize_phone_number` is
applied only when searching, never at storage time. -/
theorem created_contact_number_raw :
    ∀ (today : PDate) (db : DB) (pd : PatientCreate),
      (create_patient today db pd).1.success = true →
      (create_patient today db pd).2.patients.map (fun d => d.contact_number) =
        db.patients.map (fun d => d.contact_number) ++ [pd.contactNumber] := by
  intro today db pd h
  unfold create_patient at h ⊢
  by_cases hval : validate_patient_data pd today ≠ []
  · rw [if_pos hval] at h
    simp [error_response] at h
  · rw [if_neg hval] at h ⊢
    cases hfind : find_existing_patient db.patients (some pd.contactNumber)
        (some pd.fullName) none with
    | some ex =>
      rw [hfind] at h
      by_cases hb : (pyLower ex.full_name == pyLower pd.fullName &&
          ex.date_of_birth == pd.dateOfBirth) = true
      · simp [hb] at h
      · simp [hb, create_patient_insert, format_patient_document]
    | none =>
      simp [create_patient_insert, format_patient_document]

/-- Witness for C7 (amended) at a concrete successful registration. -/
theorem created_contact_number_raw_witness :
    (create_patient ⟨2026, 10, 12⟩ ⟨[], []⟩
      ⟨"Asha Rao", "+91 98765-43210", "01-02-1990", "Male", "Hyderabad"⟩).2.patients.map
        (fun d => d.contact_number) = [] ++ ["+91 98765-43210"] :=
  created_contact_number_raw ⟨2026, 10, 12⟩ ⟨[], []⟩
    ⟨"Asha Rao", "+91 98765-43210", "01-02-1990", "Male", "Hyderabad"⟩ (by decide)

/-- Counterexample to C7 as stated: the record created for a 10-digit
submitted number stores it verbatim, while its normalized
(country-code-prefixed) form differs. -/
theorem created_contact_number_cex :
    (create_patient ⟨2026, 10, 12⟩ ⟨[], []⟩
      ⟨"Asha Rao", "9876543210", "01-02-1990", "Male", "Hyderabad"⟩).2.patients.map
        (fun d => d.contact_number) = ["9876543210"] ∧
    sanitize_phone_number "9876543210" = "+919876543210" ∧
    ("9876543210" : String) ≠ "+919876543210" := by
  decide

/-- A `$set` assignment on any key other than `patient_id` leaves the
identifier unchanged. -/
theorem setField_patient_id {doc : PatientDoc} {k v : String} (hk : k ≠ "patient_id") :
    (setField doc k v).patient_id = doc.patient_id := by
  unfold setField
  rw [if_neg hk]
  split_ifs <;> rfl

/-- A `$set` document without a `patient_id` key leaves the identifier
unchanged. -/
theorem applySet_patient_id :
    ∀ {l : List (String × String)} {doc : PatientDoc},
      (∀ v, ("patient_id", v) ∉ l) →
      (applySet doc l).patient_id = doc.patient_id := by
  intro l
  induction l with
  | nil => intro doc _; rfl
  | cons e rest ih =>
    intro doc hl
    obtain ⟨k, v⟩ := e
    have hk : k ≠ "patient_id" := by
      intro hkk
      subst hkk
      exact hl v (List.mem_cons_self _ _)
    rw [applySet, ih (fun v' hv' => hl v' (List.mem_cons_of_mem _ hv')),
      setField_patient_id hk]

/-- Model lemma: `update_one` with an identifier-preserving rewrite preserves the
identifier sequence of the collection. -/
theorem updateFirst_patient_id {pred : PatientDoc → Bool} {f : PatientDoc → PatientDoc}
    (hf : ∀ p, (f p).patient_id = p.patient_id) :
    ∀ db : List PatientDoc,
      (updateFirst pred f db).map (fun p => p.patient_id) =
        db.map (fun p => p.patient_id) := by
  intro db
  induction db with
  | nil => rfl
  | cons d rest ih =>
    unfold updateFirst
    by_cases hd : pred d = true
    · rw [if_pos hd]
      simp [List.map_cons, hf d]
    · rw [if_neg hd]
      simp [List.map_cons, ih]

/-- C9 (amended): `deactivate_patient` never changes any stored
`patient_id`, and `update_patient` never changes any stored `patient_id`
*provided* the caller-supplied update dictionary carries no (non-`None`)
`patient_id` key.  (The service does not filter that key out — see the
counterexample.) -/
theorem patient_id_update_safe :
    ∀ (db : List PatientDoc) (pid : String) (update_data : List (String × Option String)),
      (∀ v, ("patient_id", some v) ∉ update_data) →
      (update_patient db pid update_data).map (fun p => p.patient_id) =
        db.map (fun p => p.patient_id) ∧
      (deactivate_patient db pid).map (fun p => p.patient_id) =
        db.map (fun p => p.patient_id) := by
  intro db pid u hu
  constructor
  · unfold update_patient
    split_ifs with h1 h2
    · rfl
    · rfl
    · have hclean : ∀ v, ("patient_id", v) ∉
          u.filterMap (fun e => e.2.map (fun w => (e.1, w))) := by
        intro v hv
        rcases List.mem_filterMap.mp hv with ⟨e, hmem, hfe⟩
        obtain ⟨k, ov⟩ := e
        cases ov with
        | none => simp at hfe
        | some w =>
          simp only [Option.map_some', Option.some.injEq, Prod.mk.injEq] at hfe
          obtain ⟨hk, hw⟩ := hfe
          have hm2 : ("patient_id", some v) ∈ u := by
            rw [← hk, ← hw]
            exact hmem
          exact hu v hm2
      exact updateFirst_patient_id (fun p => applySet_patient_id hclean) db
  · unfold deactivate_patient
    split_ifs with h1
    · rfl
    · have hf : ∀ p : PatientDoc,
          ({ p with is_active := false } : PatientDoc).patient_id = p.patient_id :=
        fun p => rfl
      exact updateFirst_patient_id hf db

/-- Witness for C9 (amended): an update touching only the locality leaves
the identifier in place. -/
theorem patient_id_update_safe_witness :
    (update_patient
      [⟨"PAT-1", "Asha Rao", "9876543210", "01-02-1990", none, "Male", "Hyderabad", true⟩]
      "PAT-1" [("locality", some "Secunderabad")]).map (fun p => p.patient_id)
      = ["PAT-1"] :=
  (patient_id_update_safe
    [⟨"PAT-1", "Asha Rao", "9876543210", "01-02-1990", none, "Male", "Hyderabad", true⟩]
    "PAT-1" [("locality", some "Secunderabad")] (by intro v hv; simp at hv)).1

/-- Counterexample to C9 as stated: `update_patient` applies a
caller-supplied `patient_id` key, rewriting the stored identifier. -/
theorem patient_id_mutable_cex :
    (update_patient
      [⟨"PAT-1", "Asha Rao", "9876543210", "01-02-1990", none, "Male", "Hyderabad", true⟩]
      "PAT-1" [("patient_id", some "PAT-2")]).map (fun p => p.patient_id) = ["PAT-2"] ∧
    (["PAT-2"] : List String) ≠ ["PAT-1"] := by
  decide

/-- Distinct digits render as distinct characters. -/
theorem digitChar_bounded_inj :
    ∀ a, a < 10 → ∀ b, b < 10 → digitChar a = digitChar b → a = b := by
  decide

/-- The stored sequence value after `counterSet` at the written key. -/
theorem counterGet_counterSet (cs : List (String × Nat)) (k : String) (v : Nat) :
    counterGet (counterSet cs k v) k = v := by
  induction cs with
  | nil => simp [counterSet, counterGet, List.find?]
  | cons e rest ih =>
    unfold counterSet
    by_cases he : e.1 == k
    · rw [if_pos he]
      simp [counterGet, List.find?]
    · have he' : (e.1 == k) = false := by simpa using he
      rw [if_neg (by simp [he'])]
      unfold counterGet at ih ⊢
      simp only [List.find?, he']
      exact ih

/-- Two fallback identifiers built over the same day string agree only if
all six time digits agree. -/
theorem fallback_time_eq {today : String} {h1 m1 s1 h2 m2 s2 : Nat}
    (hh1 : h1 < 24) (hm1 : m1 < 60) (hs1 : s1 < 60)
    (hh2 : h2 < 24) (hm2 : m2 < 60) (hs2 : s2 < 60)
    (heq : generate_patient_id_fallback today h1 m1 s1 =
      generate_patient_id_fallback today h2 m2 s2) :
    h1 = h2 ∧ m1 = m2 ∧ s1 = s2 := by
  have hd := congrArg String.data heq
  simp only [generate_patient_id_fallback, two_digit, String.data_append,
    List.append_assoc, List.cons_append, List.nil_append] at hd
  simp only [List.cons.injEq, true_and] at hd
  have hd2 := (List.append_right_inj _).mp hd
  simp only [List.cons.injEq, true_and, and_true] at hd2
  obtain ⟨e1, e2, e3, e4, e5, e6⟩ := hd2
  have g1 := digitChar_bounded_inj _ (by omega) _ (by omega) e1
  have g2 := digitChar_bounded_inj _ (by omega) _ (by omega) e2
  have g3 := digitChar_bounded_inj _ (by omega) _ (by omega) e3
  have g4 := digitChar_bounded_inj _ (by omega) _ (by omega) e4
  have g5 := digitChar_bounded_inj _ (by omega) _ (by omega) e5
  have g6 := digitChar_bounded_inj _ (by omega) _ (by omega) e6
  omega

/-- C8: the generated identifier is `PAT-<YYMMDD>-<seq>` with `seq` the
post-increment value of the per-day atomic counter zero-filled to 3 digits
(the stored counter afterwards holds that value); the fallback identifier
taken when the atomic increment fails is `PAT-<YYMMDD>-T<HHMMSS>`, and any
two fallback identifiers of the same day generated at different
seconds (different wall-clock `(h, m, s)` within a day) are distinct. -/
theorem generate_patient_id_spec :
    ∀ (counters : List (String × Nat)) (today : String)
      (h1 m1 s1 h2 m2 s2 : Nat),
      (generate_patient_id counters today).1 =
        "PAT-" ++ today ++ "-" ++
          zfill 3 (Nat.repr (counterGet counters ("patient_counter_" ++ today) + 1)) ∧
      counterGet (generate_patient_id counters today).2 ("patient_counter_" ++ today) =
        counterGet counters ("patient_counter_" ++ today) + 1 ∧
      generate_patient_id_fallback today h1 m1 s1 =
        "PAT-" ++ today ++ "-T" ++ two_digit h1 ++ two_digit m1 ++ two_digit s1 ∧
      (h1 < 24 → m1 < 60 → s1 < 60 → h2 < 24 → m2 < 60 → s2 < 60 →
        ¬(h1 = h2 ∧ m1 = m2 ∧ s1 = s2) →
        generate_patient_id_fallback today h1 m1 s1 ≠
          generate_patient_id_fallback today h2 m2 s2) := by
  intro counters today h1 m1 s1 h2 m2 s2
  refine ⟨rfl, counterGet_counterSet counters _ _, rfl, ?_⟩
  intro hh1 hm1 hs1 hh2 hm2 hs2 hne heq
  exact hne (fallback_time_eq hh1 hm1 hs1 hh2 hm2 hs2 heq)

/-- Witness for C8: the fallback identifiers of 09:05:07 and 09:05:08 on
the same day differ. -/
theorem generate_patient_id_spec_witness :
    generate_patient_id_fallback "261012" 9 5 7 ≠
      generate_patient_id_fallback "261012" 9 5 8 :=
  (generate_patient_id_spec [] "261012" 9 5 7 9 5 8).2.2.2
    (by decide) (by decide) (by decide) (by decide) (by decide) (by decide)
    (by decide)

end Healthcare

/-! Concrete evaluations of the model, mirroring the behaviour of the source
on the same inputs. -/
example : Healthcare.sanitize_phone_number "9876543210" = "+919876543210" := by decide
example : Healthcare.sanitize_phone_number "+91 98765-43210" = "+919876543210" := by decide
example : Healthcare.buildQuery (some "12345") (some "Bob") none = none := by decide
example : Healthcare.pyStrip "  a b " = "a b" := by decide
example : Healthcare.pyLower "Asha RAO" = "asha rao" := by decide
example : Healthcare.takeLast 10 "+919876543210" = "9876543210" := by decide
example : Healthcare.parseDate "01-02-1990" = some ⟨1990, 2, 1⟩ := by decide
example : Healthcare.parseDate "29-02-1990" = none := by decide
example : Healthcare.parseDate "29-02-2000" = some ⟨2000, 2, 29⟩ := by decide
example : Healthcare.parseDate "1-2-90" = none := by decide
example :
    Healthcare.validate_patient_data
      ⟨"Asha Rao", "9876543210", "01-02-1990", "Male", "Hyderabad"⟩ ⟨2026, 10, 12⟩ = [] := by
  decide
example :
    (Healthcare.create_patient ⟨2026, 10, 12⟩ ⟨[], []⟩
      ⟨"Asha Rao", "9876543210", "01-02-1990", "Male", "Hyderabad"⟩).1.success = true := by
  decide
example :
    ((Healthcare.create_patient ⟨2026, 10, 12⟩ ⟨[], []⟩
      ⟨"Asha Rao", "9876543210", "01-02-1990", "Male", "Hyderabad"⟩).1.patient_id)
      = some "PAT-261012-001" := by decide
example :
    (Healthcare.create_patient ⟨2026, 10, 12⟩
      ⟨[⟨"PAT-261012-001", "Asha Rao", "9876543210", "01-02-1990", some 36, "Male", "Hyderabad", true⟩], []⟩
      ⟨"asha rao", "+91 98765 43210", "01-02-1990", "Female", "Chennai"⟩).1.duplicate_type
      = some "exact_match" := by decide
example :
    (Healthcare.create_patient ⟨2026, 10, 12⟩
      ⟨[⟨"PAT-261012-001", "Asha Rao", "9876543210", "01-02-1990", some 36, "Male", "Hyderabad", true⟩], []⟩
      ⟨"Ravi Rao", "9876543210", "05-06-1995", "Male", "Hyderabad"⟩).1.success = true := by decide
example :
    Healthcare.update_patient
      [⟨"PAT-1", "Asha Rao", "9876543210", "01-02-1990", none, "Male", "Hyderabad", true⟩]
      "PAT-1" [("patient_id", some "PAT-2")]
      = [⟨"PAT-2", "Asha Rao", "9876543210", "01-02-1990", none, "Male", "Hyderabad", true⟩] := by
  decide
example :
    (Healthcare.generate_patient_id [("patient_counter_261012", 41)] "261012").1
      = "PAT-261012-042" := by decide
example : Healthcare.generate_patient_id_fallback "261012" 9 5 7 = "PAT-261012-T090507" := by
  decide
